import Mathlib

/-!
# Verification of the TCP request/response demo (server.c and client.c)

A shallow embedding of the two C programs:

* the server (`src/unnamed/part_000`): binds port 9999, loops on `accept`,
  per connection zeroes a 256-byte buffer, `recv`s at most 255 bytes,
  copies the buffer into the 200-byte `message` field of an uninitialized
  `ApplicationMessage` with `strncpy(msg.message, buffer, 199)`, sets
  `msg.message_length = strlen(buffer)`, formats
  `"SERVER ACK: Received '%s' (%d bytes)"` with `snprintf` into a 256-byte
  buffer, `send`s it once, and closes the connection;
* the client (`src/client.c`): takes the message from `argv[1]` or a default,
  truncates it into a 256-byte buffer with `strncpy(buffer, input, 255)`,
  connects, `send`s once, `recv`s once, and closes.

Byte strings are `List Nat`; C-string semantics (`strlen`, `%s`) are explicit
(`cstrlen`, `cstr`).  OS-call outcomes (`accept`/`recv`/`send` results, the
uninitialized stack bytes after the copied region of `msg.message`) are
parameters, and the observable behaviour (log lines, byte counts printed,
sends, closes, exit codes) is an explicit event trace.
-/

set_option maxRecDepth 40000

/-- `#define BUFFER_SIZE 256` (both programs). -/
def BUFFER_SIZE : Nat := 256

/-- The `strncpy` count used for `msg.message`: `sizeof(msg.message) - 1 = 199`. -/
def MSG_FIELD : Nat := 199

/-- Bytes of a Lean string literal (ASCII code points). -/
def bytesOf (s : String) : List Nat := s.toList.map Char.toNat

/-- C `strlen`: length of the prefix before the first zero byte. -/
def cstrlen : List Nat → Nat
  | [] => 0
  | b :: bs => if b = 0 then 0 else cstrlen bs + 1

/-- The bytes a C string designates: the prefix before the first zero byte
(what `%s` and `strlen` read). -/
def cstr : List Nat → List Nat
  | [] => []
  | b :: bs => if b = 0 then [] else b :: cstr bs

/-- Decimal digits of `n` as ASCII bytes (what `%d` prints for `n ≥ 0`). -/
def natDecimal (n : Nat) : List Nat := (Nat.toDigits 10 n).map Char.toNat

/-- The bytes `strncpy(dest, src, n)` writes into the first `n` bytes of
`dest`: the C string of `src` cut at `n`, padded with zero bytes up to
exactly `n` when the string is shorter.  When `strlen(src) ≥ n` no
terminating zero byte is written. -/
def strncpyModel (src : List Nat) (n : Nat) : List Nat :=
  (cstr src).take n ++ List.replicate (n - (cstr src).length) 0

/-! ## Server: per-connection message handling (`main`, lines 173-199) -/

/-- The 256-byte receive buffer after `memset(buffer, 0, BUFFER_SIZE)` and a
`recv` that delivered `received` bytes (`received.length ≤ 255`); on a `recv`
error the buffer keeps its zeroes, which is `serverBuffer []`. -/
def serverBuffer (received : List Nat) : List Nat :=
  received ++ List.replicate (BUFFER_SIZE - received.length) 0

/-- `msg.message_length = strlen(buffer)` (server `main`, line 182). -/
def serverReportedLen (received : List Nat) : Nat :=
  cstrlen (serverBuffer received)

/-- The bytes `%s` reads from `msg.message` when formatting the response:
the field's first 199 bytes were written by
`strncpy(msg.message, buffer, sizeof(msg.message) - 1)`, and `uninit` is the
uninitialized stack memory that follows them (the struct is never zeroed, so
when the copy fills all 199 bytes without a terminator the read runs into
`uninit`). -/
def serverEchoBytes (received : List Nat) (uninit : List Nat) : List Nat :=
  cstr (strncpyModel (serverBuffer received) MSG_FIELD ++ uninit)

/-- The response the server builds with
`snprintf(response, BUFFER_SIZE, "SERVER ACK: Received '%s' (%d bytes)", msg.message, msg.message_length)`
and then sends with length `strlen(response)`: `snprintf` writes at most
`BUFFER_SIZE - 1` bytes plus the terminator. -/
def serverResponse (received : List Nat) (uninit : List Nat) : List Nat :=
  (bytesOf "SERVER ACK: Received '" ++ serverEchoBytes received uninit ++
    bytesOf "' (" ++ natDecimal (serverReportedLen received) ++
    bytesOf " bytes)").take (BUFFER_SIZE - 1)

/-! ## Server: accept loop (`main`, lines 142-200) -/

/-- Outcome of the `recv` call on an accepted connection: an error
(`recv` returned `-1`, buffer untouched) or `recvOk data` bytes delivered
(`data = []` is the peer half-closing with zero bytes). -/
inductive RecvResult
  | recvErr
  | recvOk (data : List Nat)
deriving DecidableEq

/-- What one iteration of the accept loop is given by the environment:
either `accept` fails, or a connection arrives with a `recv` outcome, the
uninitialized bytes after the copied region of `msg.message`, and the number
of bytes the kernel reports for the single `send` of the response. -/
inductive ConnOutcome
  | acceptErr
  | conn (r : RecvResult) (uninit : List Nat) (sendRes : Int)
deriving DecidableEq

/-- Observable events of the server loop. -/
inductive SEvent
  | logError (msg : List Nat)
  | readCall (maxLen : Nat)
  | sendCall (data : List Nat) (kernelSent : Int)
  | closeCall
deriving DecidableEq

/-- Buffer contents as a function of the `recv` outcome: on error the
zero-filled buffer is untouched, so the C string in it is empty. -/
def recvBuffer : RecvResult → List Nat
  | .recvErr => []
  | .recvOk d => d

/-- One iteration of the server's `while (1)` accept loop.  `accept` failure
is `perror`-logged and the iteration ends (`continue`); otherwise the body
runs `receive_via_tcp` (a single `recv` of at most `BUFFER_SIZE - 1` bytes),
builds the response, runs `send_via_tcp` (a single `send`), and `close`s. -/
def serverStep : ConnOutcome → List SEvent
  | .acceptErr => [.logError (bytesOf "Accept failed")]
  | .conn r uninit sendRes =>
      [.readCall (BUFFER_SIZE - 1),
       .sendCall (serverResponse (recvBuffer r) uninit) sendRes,
       .closeCall]

/-- Whether an iteration of the loop terminates the server process: the loop
body contains no `exit`, `break` or `return` — its only control transfer is
`continue` — so no connection outcome ever terminates it. -/
def serverExits : ConnOutcome → Bool
  | .acceptErr => false
  | .conn _ _ _ => false

/-- The event trace of the server run over a sequence of loop outcomes:
strictly sequential, each connection handled to completion before the next
`accept`. -/
def serverRun : List ConnOutcome → List SEvent
  | [] => []
  | o :: rest => serverStep o ++ serverRun rest

/-! ## Client (`src/client.c`) -/

/-- The default message (`main`, line 126). -/
def DEFAULT_MSG : String := "Hello from TCP Client!"

/-- `const char *message = (argc > 1) ? argv[1] : "Hello from TCP Client!";`
`args` is `argv` without the program name; only `argv[1]` is ever consulted. -/
def selectMessage : List String → String
  | [] => DEFAULT_MSG
  | a :: _ => a

/-- `prepare_message`: `strncpy(buffer, user_input, size - 1)` into a 256-byte
buffer, then `buffer[size - 1] = 0`; the C string sent afterwards is the
input's C string cut at 255 bytes. -/
def prepare_message (input : List Nat) : List Nat :=
  (cstr input).take (BUFFER_SIZE - 1)

/-- Byte counts the client's `send_via_tcp` and the server's `send_via_tcp`
report on stdout. -/
inductive IOEvent
  | toldExpected (n : Nat)
  | toldActual (n : Int)
deriving DecidableEq

/-- The counts the server's `send_via_tcp` prints: `Data Size` always and
`Sent` always (lines 55 and 59 of the server). -/
def server_send_events (len : Nat) (sent : Int) : List IOEvent :=
  [.toldExpected len, .toldActual sent]

/-- The counts the client's `send_via_tcp` prints: `Data Length` always
(line 85), `Sent` only when `send` returned a positive count (lines 91-95);
the function returns `void`, so nothing is reported on `sent ≤ 0`. -/
def client_send_events (len : Nat) (sent : Int) : List IOEvent :=
  .toldExpected len :: (if 0 < sent then [.toldActual sent] else [])

/-- OS-call outcomes for one client run. -/
structure ClientEnv where
  socketOk : Bool
  connectOk : Bool
  sendRes : Int
  recvRes : RecvResult
deriving DecidableEq

/-- Observable events of the client process. -/
inductive CEvent
  | stderrLog (msg : List Nat)
  | sendCall (data : List Nat) (kernelSent : Int)
  | readCall (maxLen : Nat)
  | closeCall
deriving DecidableEq

/-- Exit code and event trace of one client run. -/
structure ClientResult where
  exitCode : Nat
  events : List CEvent
deriving DecidableEq

/-- The client's `main`: pick the message, prepare it, create the socket and
connect (`establish_tcp_connection` calls `perror` and `exit(1)` on either
failure, without closing), then a single `send` (its result unchecked), a
single `recv` (its result unchecked), `close(socket_fd)`, `return 0`. -/
def clientRun (args : List String) (env : ClientEnv) : ClientResult :=
  let msg := prepare_message (bytesOf (selectMessage args))
  if ¬ env.socketOk then
    { exitCode := 1, events := [.stderrLog (bytesOf "Socket creation failed")] }
  else if ¬ env.connectOk then
    { exitCode := 1, events := [.stderrLog (bytesOf "Connection failed")] }
  else
    { exitCode := 0,
      events := [.sendCall msg env.sendRes,
                 .readCall (BUFFER_SIZE - 1),
                 .closeCall] }

/-! ## Basic lemmas about C strings -/

theorem cstr_append_zero (M : List Nat) (h : ∀ b ∈ M, b ≠ 0) (rest : List Nat) :
    cstr (M ++ 0 :: rest) = M := by
  induction M with
  | nil => simp [cstr]
  | cons b bs ih =>
      have hb : b ≠ 0 := h b (by simp)
      simp only [List.cons_append, cstr, if_neg hb, List.append_eq]
      rw [ih (fun x hx => h x (by simp [hx]))]

theorem cstrlen_append_zero (M : List Nat) (h : ∀ b ∈ M, b ≠ 0) (rest : List Nat) :
    cstrlen (M ++ 0 :: rest) = M.length := by
  induction M with
  | nil => simp [cstrlen]
  | cons b bs ih =>
      have hb : b ≠ 0 := h b (by simp)
      simp only [List.cons_append, cstrlen, if_neg hb, List.length_cons, List.append_eq]
      rw [ih (fun x hx => h x (by simp [hx]))]

theorem cstr_of_nonzero (M : List Nat) (h : ∀ b ∈ M, b ≠ 0) :
    cstr M = M := by
  induction M with
  | nil => rfl
  | cons b bs ih =>
      have hb : b ≠ 0 := h b (by simp)
      simp only [cstr, if_neg hb]
      rw [ih (fun x hx => h x (by simp [hx]))]

theorem serverBuffer_cstr (M : List Nat) (h : ∀ b ∈ M, b ≠ 0)
    (hlen : M.length ≤ BUFFER_SIZE - 1) :
    cstr (serverBuffer M) = M := by
  have hrep : BUFFER_SIZE - M.length = (BUFFER_SIZE - M.length - 1) + 1 := by
    simp only [BUFFER_SIZE] at hlen ⊢; omega
  unfold serverBuffer
  rw [hrep, List.replicate_succ]
  exact cstr_append_zero M h _

theorem serverReportedLen_eq (M : List Nat) (h : ∀ b ∈ M, b ≠ 0)
    (hlen : M.length ≤ BUFFER_SIZE - 1) :
    serverReportedLen M = M.length := by
  have hrep : BUFFER_SIZE - M.length = (BUFFER_SIZE - M.length - 1) + 1 := by
    simp only [BUFFER_SIZE] at hlen ⊢; omega
  unfold serverReportedLen serverBuffer
  rw [hrep, List.replicate_succ]
  exact cstrlen_append_zero M h _

/-- `%d` prints at most 3 digits for the values `message_length` can take
(it is `strlen` of a 256-byte buffer, so below 256). -/
theorem natDecimal_length_le : ∀ n < 256, (natDecimal n).length ≤ 3 := by decide

/-- On a `recv` error or half-close the zeroed buffer yields an all-zero
`msg.message` region, so the `%s` read is empty whatever follows it. -/
theorem strncpyModel_nil : strncpyModel (serverBuffer []) MSG_FIELD = List.replicate 199 0 := by
  decide

theorem serverEchoBytes_nil (u : List Nat) : serverEchoBytes [] u = [] := by
  unfold serverEchoBytes
  rw [strncpyModel_nil]
  have h199 : (199 : Nat) = 198 + 1 := rfl
  rw [h199, List.replicate_succ, List.cons_append]
  simp [cstr]

theorem serverResponse_nil (u : List Nat) :
    serverResponse [] u = bytesOf "SERVER ACK: Received '' (0 bytes)" := by
  unfold serverResponse
  rw [serverEchoBytes_nil]
  decide

theorem serverRun_append (l₁ l₂ : List ConnOutcome) :
    serverRun (l₁ ++ l₂) = serverRun l₁ ++ serverRun l₂ := by
  induction l₁ with
  | nil => rfl
  | cons o rest ih => simp [serverRun, ih, List.append_assoc]

/-- Discriminators over the event traces. -/
def isLogEvent : SEvent → Bool
  | .logError _ => true
  | _ => false

def isSendEvent : SEvent → Bool
  | .sendCall _ _ => true
  | _ => false

def isStderrEvent : CEvent → Bool
  | .stderrLog _ => true
  | _ => false

def isCloseEvent : CEvent → Bool
  | .closeCall => true
  | _ => false

/-! ## Claims -/

/-- C1, counterexample: the acknowledgment format the claim gives is wrong —
for the input `HELLO` the server replies
`SERVER ACK: Received 'HELLO' (5 bytes)`, not `ACK: HELLO (5 bytes)` — and
for messages of 199 bytes or more the response is not a function of the
message alone: it also depends on the uninitialized stack bytes after the
`msg.message` field. -/
theorem C1_response_format_counterexample :
    serverResponse (bytesOf "HELLO") [] ≠ bytesOf "ACK: HELLO (5 bytes)" ∧
    serverResponse (List.replicate 199 65) [66, 0] ≠
      serverResponse (List.replicate 199 65) [0] := by
  constructor <;> decide

/-- C1, amended: for every message of at most 198 nonzero bytes, the running
server returns an acknowledgment that is a deterministic function of the
message and its byte length, namely
`SERVER ACK: Received '<message>' (<length> bytes)`, independent of the
uninitialized memory after the copied field. -/
theorem C1_ack_deterministic (M : List Nat) (h0 : ∀ b ∈ M, b ≠ 0)
    (h1 : M.length ≤ 198) (u : List Nat) :
    serverResponse M u =
      bytesOf "SERVER ACK: Received '" ++ M ++ bytesOf "' (" ++
        natDecimal M.length ++ bytesOf " bytes)" := by
  have hecho : serverEchoBytes M u = M := by
    unfold serverEchoBytes strncpyModel
    rw [serverBuffer_cstr M h0 (by simp only [BUFFER_SIZE]; omega)]
    rw [List.take_of_length_le (by simp only [MSG_FIELD]; omega)]
    have hrep : MSG_FIELD - M.length = (MSG_FIELD - M.length - 1) + 1 := by
      simp only [MSG_FIELD]; omega
    rw [hrep, List.replicate_succ, List.append_assoc, List.cons_append]
    exact cstr_append_zero M h0 _
  have hrl := serverReportedLen_eq M h0 (by simp only [BUFFER_SIZE]; omega)
  have hd : (natDecimal M.length).length ≤ 3 :=
    natDecimal_length_le M.length (by omega)
  unfold serverResponse
  rw [hecho, hrl]
  apply List.take_of_length_le
  have h22 : (bytesOf "SERVER ACK: Received '").length = 22 := rfl
  have h3 : (bytesOf "' (").length = 3 := rfl
  have h7 : (bytesOf " bytes)").length = 7 := rfl
  simp only [List.length_append, h22, h3, h7, BUFFER_SIZE]
  omega

/-- C1, witness: the amended statement at the concrete input `HELLO`. -/
theorem C1_ack_deterministic_witness :
    serverResponse (bytesOf "HELLO") [] =
      bytesOf "SERVER ACK: Received 'HELLO' (5 bytes)" := by
  rw [C1_ack_deterministic (bytesOf "HELLO") (by decide) (by decide) []]
  decide

/-- C2: a connection that delivers zero bytes before the peer half-closes
(`recv` returns 0) is treated as an empty message: the server still responds,
with the non-error acknowledgment `SERVER ACK: Received '' (0 bytes)`
describing a zero-length message, and the connection does not terminate the
server. -/
theorem C2_empty_message_ack (u : List Nat) (s : Int) :
    serverStep (.conn (.recvOk []) u s) =
      [.readCall (BUFFER_SIZE - 1),
       .sendCall (bytesOf "SERVER ACK: Received '' (0 bytes)") s,
       .closeCall] ∧
    serverExits (.conn (.recvOk []) u s) = false := by
  refine ⟨?_, rfl⟩
  simp only [serverStep, recvBuffer]
  rw [serverResponse_nil]

/-- C3, counterexample: a connection whose `recv` fails is neither logged as
an error nor abandoned: its trace contains no log event, and the server still
sends an acknowledgment (built from the untouched zeroed buffer) on that very
connection. -/
theorem C3_read_error_counterexample :
    (serverStep (.conn .recvErr [] 0)).filter isLogEvent = [] ∧
    (serverStep (.conn .recvErr [] 0)).filter isSendEvent =
      [.sendCall (bytesOf "SERVER ACK: Received '' (0 bytes)") 0] := by
  constructor <;> decide

/-- C3, amended: an `accept` failure is logged and that iteration skipped; a
`recv` failure is neither logged nor abandoned — the server treats it exactly
like an empty message and still replies; no connection outcome makes the loop
exit, and after any sequence of outcomes the next one is still handled. -/
theorem C3_loop_resilience (l : List ConnOutcome) (o : ConnOutcome)
    (u : List Nat) (s : Int) :
    serverStep .acceptErr = [.logError (bytesOf "Accept failed")] ∧
    serverExits o = false ∧
    serverRun (l ++ [o]) = serverRun l ++ serverStep o ∧
    serverStep (.conn .recvErr u s) =
      [.readCall (BUFFER_SIZE - 1),
       .sendCall (bytesOf "SERVER ACK: Received '' (0 bytes)") s,
       .closeCall] := by
  refine ⟨rfl, ?_, ?_, ?_⟩
  · cases o <;> rfl
  · rw [serverRun_append]; simp [serverRun]
  · simp only [serverStep, recvBuffer]
    rw [serverResponse_nil]

/-- C4, counterexample: a send failure (kernel returns -1 after a successful
connect) is silent: the client prints nothing to standard error and still
exits with code 0, contradicting the claimed non-zero exit on any send or
receive failure. -/
theorem C4_silent_send_failure_counterexample :
    (clientRun [] { socketOk := true, connectOk := true, sendRes := -1,
                    recvRes := .recvErr }).exitCode = 0 ∧
    ((clientRun [] { socketOk := true, connectOk := true, sendRes := -1,
                     recvRes := .recvErr }).events.filter isStderrEvent) = [] := by
  constructor <;> decide

/-- C4, amended: the Requester exits 0 whenever socket creation and connect
succeed, send/receive outcomes notwithstanding (those failures are
undetected); it exits 1 with the failure reason on standard error exactly on
socket-creation or connect failure. -/
theorem C4_exit_codes (args : List String) (env : ClientEnv) :
    (env.socketOk = false →
      clientRun args env =
        { exitCode := 1,
          events := [.stderrLog (bytesOf "Socket creation failed")] }) ∧
    (env.socketOk = true → env.connectOk = false →
      clientRun args env =
        { exitCode := 1, events := [.stderrLog (bytesOf "Connection failed")] }) ∧
    (env.socketOk = true → env.connectOk = true →
      (clientRun args env).exitCode = 0) := by
  refine ⟨fun h => ?_, fun h1 h2 => ?_, fun h1 h2 => ?_⟩ <;>
    simp [clientRun, *]

/-- C4, witness: the amended statement at a concrete connect failure. -/
theorem C4_exit_codes_witness :
    clientRun [] { socketOk := true, connectOk := false, sendRes := 0,
                   recvRes := .recvErr } =
      { exitCode := 1, events := [.stderrLog (bytesOf "Connection failed")] } :=
  (C4_exit_codes [] { socketOk := true, connectOk := false, sendRes := 0,
                      recvRes := .recvErr }).2.1 rfl rfl

/-- C5, counterexample: the truncation caps disagree: the client cuts
oversized input at 255 bytes, while for a received 250-byte message the
server echoes only its first 199 bytes in the acknowledgment yet reports
250 bytes — the acknowledgment does not reflect one consistently handled
message. -/
theorem C5_inconsistent_truncation_counterexample :
    prepare_message (List.replicate 300 65) = List.replicate 255 65 ∧
    serverEchoBytes (List.replicate 250 65) [0] = List.replicate 199 65 ∧
    serverReportedLen (List.replicate 250 65) = 250 := by
  refine ⟨by decide, by decide, by decide⟩

/-- C5, amended: oversized input is truncated, but with inconsistent caps:
the Requester truncates the message to 255 bytes before sending; the
Responder, given up to 255 received bytes, echoes at most the first 199 of
them in the acknowledgment while reporting the full received length, so for
messages longer than 199 bytes the echoed text and the reported length
disagree. -/
theorem C5_truncation_policy (M : List Nat) (h0 : ∀ b ∈ M, b ≠ 0)
    (h1 : M.length ≤ 255) :
    prepare_message M = M.take 255 ∧
    serverEchoBytes M [0] = M.take 199 ∧
    serverReportedLen M = M.length := by
  refine ⟨?_, ?_, serverReportedLen_eq M h0 (by simp only [BUFFER_SIZE]; omega)⟩
  · unfold prepare_message
    rw [cstr_of_nonzero M h0]
    rfl
  · unfold serverEchoBytes strncpyModel
    rw [serverBuffer_cstr M h0 (by simp only [BUFFER_SIZE]; omega)]
    simp only [MSG_FIELD]
    by_cases hc : 199 ≤ M.length
    · have hz : 199 - M.length = 0 := by omega
      rw [hz, List.replicate_zero, List.append_nil]
      exact cstr_append_zero (M.take 199)
        (fun b hb => h0 b (List.take_subset _ _ hb)) []
    · push_neg at hc
      have htake : M.take 199 = M := List.take_of_length_le (by omega)
      rw [htake]
      have hrep : 199 - M.length = (199 - M.length - 1) + 1 := by omega
      rw [hrep, List.replicate_succ, List.append_assoc, List.cons_append]
      rw [cstr_append_zero M h0 _]

/-- C5, witness: the amended statement at a concrete 250-byte message. -/
theorem C5_truncation_policy_witness :
    prepare_message (List.replicate 250 65) = (List.replicate 250 65).take 255 ∧
    serverEchoBytes (List.replicate 250 65) [0] =
      (List.replicate 250 65).take 199 ∧
    serverReportedLen (List.replicate 250 65) = 250 :=
  C5_truncation_policy (List.replicate 250 65) (by decide) (by decide)

/-- C6, counterexample: on a connect failure the client process exits with
code 1 without ever closing the socket it created — the trace of that exit
path contains no close event. -/
theorem C6_connect_failure_no_close_counterexample :
    (clientRun [] { socketOk := true, connectOk := false, sendRes := 0,
                    recvRes := .recvErr }).events.filter isCloseEvent = [] ∧
    (clientRun [] { socketOk := true, connectOk := false, sendRes := 0,
                    recvRes := .recvErr }).exitCode = 1 := by
  constructor <;> decide

/-- C6, amended: once the connection is established the Requester closes the
socket exactly once, as the last action of the run, on every path — send and
receive failures included, since they are undetected — but on socket-creation
or connect failure the process exits without an explicit close. -/
theorem C6_close_after_connect (args : List String) (env : ClientEnv)
    (h1 : env.socketOk = true) (h2 : env.connectOk = true) :
    (clientRun args env).events =
      [.sendCall (prepare_message (bytesOf (selectMessage args))) env.sendRes,
       .readCall (BUFFER_SIZE - 1),
       .closeCall] ∧
    (clientRun args env).exitCode = 0 := by
  constructor <;> simp [clientRun, h1, h2]

/-- C6, witness: the amended statement at a concrete run whose send and
receive both fail. -/
theorem C6_close_after_connect_witness :
    (clientRun [] { socketOk := true, connectOk := true, sendRes := -1,
                    recvRes := .recvErr }).events =
      [.sendCall (prepare_message (bytesOf (selectMessage []))) (-1),
       .readCall (BUFFER_SIZE - 1),
       .closeCall] ∧
    (clientRun [] { socketOk := true, connectOk := true, sendRes := -1,
                    recvRes := .recvErr }).exitCode = 0 :=
  C6_close_after_connect [] { socketOk := true, connectOk := true,
                              sendRes := -1, recvRes := .recvErr } rfl rfl

/-- C7, counterexample: the acknowledgment is not written fully: when the
kernel accepts only 3 of the 38 response bytes, the trace still contains
exactly one send call followed directly by the close — no retry completes
the write. -/
theorem C7_partial_write_counterexample :
    serverStep (.conn (.recvOk (bytesOf "HELLO")) [] 3) =
      [.readCall 255,
       .sendCall (bytesOf "SERVER ACK: Received 'HELLO' (5 bytes)") 3,
       .closeCall] ∧
    (bytesOf "SERVER ACK: Received 'HELLO' (5 bytes)").length = 38 ∧
    (3 : Int) ≠ 38 := by
  refine ⟨by decide, by decide, by decide⟩

/-- C7, amended: every accepted connection is handled by exactly the ordered
steps read (one `recv` of up to 255 bytes), then one send attempt of the
whole acknowledgment — whose completion is not verified, a partial kernel
write being final — then close; and each connection is handled to completion
before the next loop iteration begins. -/
theorem C7_sequential_steps (r : RecvResult) (u : List Nat) (s : Int)
    (rest : List ConnOutcome) :
    serverStep (.conn r u s) =
      [.readCall (BUFFER_SIZE - 1),
       .sendCall (serverResponse (recvBuffer r) u) s,
       .closeCall] ∧
    serverRun (.conn r u s :: rest) = serverStep (.conn r u s) ++ serverRun rest := by
  exact ⟨rfl, rfl⟩

/-- C8, counterexample: a failed client-side send (kernel result -1, so 0 of
the 5 expected bytes were transferred — knowable and different) reports only
the expected count: no actual transfer count is ever printed. -/
theorem C8_failed_send_counterexample :
    client_send_events 5 (-1) = [IOEvent.toldExpected 5] ∧
    IOEvent.toldActual (-1) ∉ client_send_events 5 (-1) ∧
    IOEvent.toldActual 0 ∉ client_send_events 5 (-1) := by
  refine ⟨by decide, by decide, by decide⟩

/-- C8, amended: the server-side send helper always prints both the requested
and the actual byte count, partial writes included; the client-side send
helper prints the actual count only when the kernel result is positive — on a
failed send only the expected count appears — and neither helper returns the
counts to its caller. -/
theorem C8_transfer_reporting (len : Nat) (sent : Int) :
    server_send_events len sent = [.toldExpected len, .toldActual sent] ∧
    (0 < sent →
      client_send_events len sent = [.toldExpected len, .toldActual sent]) ∧
    (sent ≤ 0 → client_send_events len sent = [.toldExpected len]) := by
  refine ⟨rfl, fun h => ?_, fun h => ?_⟩
  · simp [client_send_events, h]
  · simp only [client_send_events]
    rw [if_neg (by omega : ¬ (0 : Int) < sent)]

/-- C8, witness: the amended statement at a concrete failed send. -/
theorem C8_transfer_reporting_witness :
    client_send_events 7 (-2) = [IOEvent.toldExpected 7] :=
  (C8_transfer_reporting 7 (-2)).2.2 (by decide)

/-- C9: the Requester consults at most the first positional argument, which
is the message text — extra arguments change nothing — and when it is absent
the fixed default message is used, so the run is identical to one invoked
with the default message as argument. -/
theorem C9_cli_argument (m : String) (rest : List String) (env : ClientEnv) :
    selectMessage (m :: rest) = m ∧
    selectMessage [] = DEFAULT_MSG ∧
    clientRun (m :: rest) env = clientRun [m] env ∧
    clientRun [] env = clientRun [DEFAULT_MSG] env :=
  ⟨rfl, rfl, rfl, rfl⟩

/-- C10: for a received message of 199 or more (nonzero) bytes, `strncpy`
fills the 200-byte `message` field with exactly the first 199 bytes and no
terminating zero among them; the `%s` read that formats the acknowledgment
therefore depends on the uninitialized bytes that follow the copy — with a
zero there it echoes the 199-byte truncation, with a 66 there it echoes an
extra byte that was never received — while the reported length is that of the
full received buffer, not of the truncated copy echoed. -/
theorem C10_unterminated_copy (M : List Nat) (h0 : ∀ b ∈ M, b ≠ 0)
    (h1 : 199 ≤ M.length) (h2 : M.length ≤ 255) (u : List Nat) :
    strncpyModel (serverBuffer M) MSG_FIELD = M.take 199 ∧
    (∀ b ∈ M.take 199, b ≠ 0) ∧
    serverEchoBytes M (0 :: u) = M.take 199 ∧
    serverEchoBytes M (66 :: 0 :: u) = M.take 199 ++ [66] ∧
    serverReportedLen M = M.length := by
  have htake_nz : ∀ b ∈ M.take 199, b ≠ 0 :=
    fun b hb => h0 b (List.take_subset _ _ hb)
  have hcopy : strncpyModel (serverBuffer M) MSG_FIELD = M.take 199 := by
    unfold strncpyModel
    rw [serverBuffer_cstr M h0 (by simp only [BUFFER_SIZE]; omega)]
    simp only [MSG_FIELD]
    have hz : 199 - M.length = 0 := by omega
    rw [hz, List.replicate_zero, List.append_nil]
  refine ⟨hcopy, htake_nz, ?_, ?_,
    serverReportedLen_eq M h0 (by simp only [BUFFER_SIZE]; omega)⟩
  · unfold serverEchoBytes
    rw [hcopy]
    exact cstr_append_zero (M.take 199) htake_nz u
  · unfold serverEchoBytes
    rw [hcopy]
    have hsplit : M.take 199 ++ 66 :: 0 :: u = (M.take 199 ++ [66]) ++ 0 :: u := by
      simp
    rw [hsplit]
    refine cstr_append_zero (M.take 199 ++ [66]) ?_ u
    intro b hb
    rcases List.mem_append.1 hb with hmem | hmem
    · exact htake_nz b hmem
    · simp only [List.mem_singleton] at hmem
      omega

/-- C10, witness: the statement at a concrete 205-byte message of letter A
bytes. -/
theorem C10_unterminated_copy_witness :
    strncpyModel (serverBuffer (List.replicate 205 65)) MSG_FIELD =
      (List.replicate 205 65).take 199 ∧
    (∀ b ∈ (List.replicate 205 65).take 199, b ≠ 0) ∧
    serverEchoBytes (List.replicate 205 65) (0 :: []) =
      (List.replicate 205 65).take 199 ∧
    serverEchoBytes (List.replicate 205 65) (66 :: 0 :: []) =
      (List.replicate 205 65).take 199 ++ [66] ∧
    serverReportedLen (List.replicate 205 65) = (List.replicate 205 65).length :=
  C10_unterminated_copy (List.replicate 205 65) (by decide) (by decide)
    (by decide) []
